import Mathlib

/-!
Verification development for the CUQI-Book teaching repository.

The repository is a collection of Jupyter notebooks calling an external
uncertainty-quantification library.  The code owned by the repository is
small plotting helpers, an entropy-via-quadrature cell, Gibbs-sampling
orchestration cells, try/except teaching cells, and a CI workflow.  We
embed these shallowly: numeric values become exact rationals, external
library functions (log-density, pdf, cdf, quadrature, numpy exp) become
function parameters, Python exceptions become the Except monad, and the
notebook call sites that the corpus-level claims quantify over are
transcribed as explicit lists of records.
-/

namespace CuqiBook

/-- Model of numpy linspace: element i of np.linspace a b n.  For n larger
than 1 this is a + (b - a) * i / (n - 1); numpy returns the single point a
when n = 1. -/
def linspace (a b : ℚ) (n : ℕ) (i : ℕ) : ℚ :=
  if n ≤ 1 then a else a + (b - a) * i / ((n : ℚ) - 1)

/-- Model of the first output of np.meshgrid(ls1, ls2): grid1[ii, jj] = ls1[jj]. -/
def meshgrid1 (a b : ℚ) (n : ℕ) (ii jj : ℕ) : ℚ := linspace a b n jj

/-- Model of the second output of np.meshgrid(ls1, ls2): grid2[ii, jj] = ls2[ii]. -/
def meshgrid2 (c d : ℚ) (n : ℕ) (ii jj : ℕ) : ℚ := linspace c d n ii

/-- The extent tuple handed to plt.imshow by plot2d. -/
structure Extent where
  x_lo : ℚ
  x_hi : ℚ
  y_lo : ℚ
  y_hi : ℚ
deriving DecidableEq

/-- Embedding of the extent computation of the helper plot2d
(src/unnamed/part_005 and chapter02): pixel widths (max - min)/(N2 - 1) per
axis, half-pixel margins, extent = (x1_min - hp_x, x1_max + hp_x,
x2_min - hp_y, x2_max + hp_y). -/
def plot2d_extent (x1_min x1_max x2_min x2_max : ℚ) (N2 : ℕ) : Extent :=
  let pixelwidth_x := (x1_max - x1_min) / ((N2 : ℚ) - 1)
  let pixelwidth_y := (x2_max - x2_min) / ((N2 : ℚ) - 1)
  let hp_x := (1 / 2 : ℚ) * pixelwidth_x
  let hp_y := (1 / 2 : ℚ) * pixelwidth_y
  ⟨x1_min - hp_x, x1_max + hp_x, x2_min - hp_y, x2_max + hp_y⟩

/-- Data-coordinate center of the k-th of n pixels laid out across the
horizontal range of an extent, following the imshow convention that the n
pixel cells partition the extent evenly. -/
def pixelCenterX (e : Extent) (n k : ℕ) : ℚ :=
  e.x_lo + ((k : ℚ) + 1 / 2) * ((e.x_hi - e.x_lo) / (n : ℚ))

/-- Data-coordinate center of the k-th of n pixels laid out across the
vertical range of an extent. -/
def pixelCenterY (e : Extent) (n k : ℕ) : ℚ :=
  e.y_lo + ((k : ℚ) + 1 / 2) * ((e.y_hi - e.y_lo) / (n : ℚ))

/-- Result of a run of plot_pdf_2D: the filled matrix distb_pdf (its side
length and an entry function) and the extent of the rendered heat map. -/
structure PdfPlotResult where
  size : ℕ
  entry : ℕ → ℕ → ℚ
  extent : Extent

/-- Embedding of plot_pdf_2D (src/unnamed/part_005 and chapter02).  The
external calls np.exp and distb.logd are parameters.  The body rebinds N2
to 201 before any use, exactly as the source does, then fills the
201 x 201 matrix distb_pdf[ii, jj] = np.exp(distb.logd([grid1[ii, jj],
grid2[ii, jj]])) and hands the matrix and the domain to plot2d. -/
def plot_pdf_2D (np_exp : ℚ → ℚ) (logd : ℚ × ℚ → ℚ)
    (x1_min x1_max x2_min x2_max : ℚ) (N2 : ℕ) : PdfPlotResult :=
  let N2 := 201
  { size := N2
    entry := fun ii jj =>
      np_exp (logd (meshgrid1 x1_min x1_max N2 ii jj, meshgrid2 x2_min x2_max N2 ii jj))
    extent := plot2d_extent x1_min x1_max x2_min x2_max N2 }

/-- The list of grid points at which plot_pdf_2D evaluates the log
density, in the order of the nested Python loops: ii outer, jj inner, the
(ii, jj) iteration evaluating at ([grid1[ii, jj], grid2[ii, jj]]). -/
def gridPoints (x1_min x1_max x2_min x2_max : ℚ) (N2 : ℕ) : List (ℚ × ℚ) :=
  (List.range N2).flatMap (fun ii =>
    (List.range N2).map (fun jj =>
      (meshgrid1 x1_min x1_max N2 ii jj, meshgrid2 x2_min x2_max N2 ii jj)))

/-- Python loop semantics for a for-loop collecting one value per element:
the first iteration whose body raises aborts the loop and the exception
propagates; otherwise the list of produced values is returned. -/
def pyMapLoop {α β : Type} (f : α → Except String β) : List α → Except String (List β)
  | [] => Except.ok []
  | a :: rest =>
    match f a with
    | Except.error e => Except.error e
    | Except.ok b =>
      match pyMapLoop f rest with
      | Except.error e => Except.error e
      | Except.ok bs => Except.ok (b :: bs)

/-- One loop-body evaluation of plot_pdf_2D with the fallibility of the
external call distb.logd made explicit: if the log-density call raises,
the exception propagates; otherwise np.exp is applied to the value. -/
def logd_exp_entry (np_exp : ℚ → ℚ) (logd : ℚ × ℚ → Except String ℚ)
    (p : ℚ × ℚ) : Except String ℚ :=
  match logd p with
  | Except.error e => Except.error e
  | Except.ok v => Except.ok (np_exp v)

/-- The nested loops of plot_pdf_2D under Python exception semantics: ii
outer and jj inner over range N2, each iteration evaluating the entry at
([grid1[ii, jj], grid2[ii, jj]]); the first raising iteration aborts both
loops and the exception propagates. -/
def pdf_matrix_loop (np_exp : ℚ → ℚ) (logd : ℚ × ℚ → Except String ℚ)
    (x1_min x1_max x2_min x2_max : ℚ) (N2 : ℕ) : Except String (List (List ℚ)) :=
  pyMapLoop (fun ii =>
      pyMapLoop (fun jj =>
          logd_exp_entry np_exp logd
            (meshgrid1 x1_min x1_max N2 ii jj, meshgrid2 x2_min x2_max N2 ii jj))
        (List.range N2))
    (List.range N2)

/-- Embedding of plot_pdf_2D with exceptions made explicit.  The body
rebinds N2 to 201 as in the source, runs the nested evaluation loops, and
only when no evaluation raises does the final plot2d call happen
(represented by the returned extent); an exception from the loops
propagates unchanged to the caller and nothing is rendered. -/
def plot_pdf_2D_exc (np_exp : ℚ → ℚ) (logd : ℚ × ℚ → Except String ℚ)
    (x1_min x1_max x2_min x2_max : ℚ) (N2 : ℕ) :
    Except String (List (List ℚ) × Extent) :=
  let N2 := 201
  match pdf_matrix_loop np_exp logd x1_min x1_max x2_min x2_max N2 with
  | Except.error e => Except.error e
  | Except.ok rows => Except.ok (rows, plot2d_extent x1_min x1_max x2_min x2_max N2)

/-- Model of a distribution object as used by the entropy cells of
src/unnamed/part_004: only the externally supplied methods pdf and logd
are touched. -/
structure Distribution where
  pdf : ℚ → ℚ
  logd : ℚ → ℚ

/-- Embedding of the lambda entropy_integrand of src/unnamed/part_004:
given dist and val it returns dist.pdf(val) * dist.logd(val). -/
def entropy_integrand (dist : Distribution) (val : ℚ) : ℚ :=
  dist.pdf val * dist.logd val

/-- An integration limit as passed to scipy quad: minus infinity, a finite
rational bound, or plus infinity. -/
inductive IntLimit where
  | neg_inf
  | fin (q : ℚ)
  | pos_inf
deriving DecidableEq

/-- Embedding of the x_entropy cell of src/unnamed/part_004.  The external
quadrature routine scipy.integrate.quad is a parameter mapping an
integrand and two limits to its result pair (value, error estimate); the
cell computes -1 * quad(lambda val: entropy_integrand(x, val), -inf,
inf)[0]. -/
def x_entropy (quad : (ℚ → ℚ) → IntLimit → IntLimit → ℚ × ℚ)
    (x : Distribution) : ℚ :=
  -1 * (quad (fun val => entropy_integrand x val) IntLimit.neg_inf IntLimit.pos_inf).1

/-- A GitHub event that may trigger the workflow of
src/.github/workflows/build_publish.yml. -/
inductive GHEvent where
  | push (branch : String)
  | pull_request (base_branch : String)
deriving DecidableEq

/-- The value of the github.event_name context for an event. -/
def event_name : GHEvent → String
  | GHEvent.push _ => "push"
  | GHEvent.pull_request _ => "pull_request"

/-- The value of the github.ref context: for a push it is the pushed
branch ref; for a pull request GitHub sets a merge ref, never a branch
ref under refs/heads. -/
def github_ref : GHEvent → String
  | GHEvent.push b => "refs/heads/" ++ b
  | GHEvent.pull_request _ => "refs/pull/merge"

/-- Whether the on: block of the workflow fires for an event: push to
branch main, or pull request with base branch main. -/
def workflow_triggered : GHEvent → Bool
  | GHEvent.push b => b == "main"
  | GHEvent.pull_request b => b == "main"

/-- The named steps of the deploy-book job. -/
inductive Step where
  | checkout
  | setup_python
  | install_dependencies
  | build_the_book
  | upload_artifact
  | publish_gh_pages
deriving DecidableEq

/-- Embedding of the deploy-book job of build_publish.yml: when triggered,
it checks out, sets up python, installs the requirements, builds the book
with jupyter-book, uploads the HTML as an artifact when
github.event_name == pull_request, and runs the GitHub Pages action
publishing _build/html to branch gh-pages when github.event_name == push
and github.ref == refs/heads/main. -/
def steps_run (e : GHEvent) : List Step :=
  if workflow_triggered e then
    [Step.checkout, Step.setup_python, Step.install_dependencies, Step.build_the_book]
      ++ (if event_name e == "pull_request" then [Step.upload_artifact] else [])
      ++ (if event_name e == "push" && github_ref e == "refs/heads/main" then
            [Step.publish_gh_pages] else [])
  else []

/-- A method call performed on a sampler object, recorded as the method
name and its numeric argument when present. -/
structure SamplerCall where
  method : String
  arg : Option ℕ
deriving DecidableEq

/-- One notebook site constructing a HybridGibbs sampler: the dict literal
defining the sampling strategy, the two arguments actually passed to the
HybridGibbs constructor, and every method call the notebook performs on
the resulting sampler object afterwards, in order. -/
structure GibbsSite where
  location : String
  strategy_def : List (String × String)
  constructor_target : String
  constructor_strategy : List (String × String)
  target_var : String
  post_calls : List SamplerCall
deriving DecidableEq

/-- Transcription of every HybridGibbs construction site in the
repository (all four are in src/unnamed/part_003). -/
def gibbs_sites : List GibbsSite :=
  [ { location := "part_003:186-219"
      strategy_def := [("x", "Direct"), ("d", "Conjugate")]
      constructor_target := "target"
      constructor_strategy := [("x", "Direct"), ("d", "Conjugate")]
      target_var := "target"
      post_calls := [⟨"warmup", some 1000⟩, ⟨"sample", some 1000⟩, ⟨"get_samples", none⟩] }
  , { location := "part_003:583-598"
      strategy_def := [("x", "LinearRTO"), ("d", "Conjugate"), ("s", "Conjugate")]
      constructor_target := "posterior"
      constructor_strategy := [("x", "LinearRTO"), ("d", "Conjugate"), ("s", "Conjugate")]
      target_var := "posterior"
      post_calls := [⟨"warmup", some 200⟩, ⟨"sample", some 1000⟩, ⟨"get_samples", none⟩] }
  , { location := "part_003:721-739"
      strategy_def := [("x", "LinearRTO"), ("d", "Conjugate"), ("s", "Conjugate")]
      constructor_target := "posterior"
      constructor_strategy := [("x", "LinearRTO"), ("d", "Conjugate"), ("s", "Conjugate")]
      target_var := "posterior"
      post_calls := [⟨"warmup", some 200⟩, ⟨"sample", some 1000⟩, ⟨"get_samples", none⟩] }
  , { location := "part_003:825-842"
      strategy_def := [("x", "UGLA"), ("d", "ConjugateApprox"), ("s", "Conjugate")]
      constructor_target := "posterior_Ld"
      constructor_strategy := [("x", "UGLA"), ("d", "ConjugateApprox"), ("s", "Conjugate")]
      target_var := "posterior_Ld"
      post_calls := [⟨"warmup", some 200⟩, ⟨"sample", some 1000⟩, ⟨"get_samples", none⟩] } ]

/-- A notebook cell of the shape: try, one library call, except Exception
as e, print(e).  Recorded by location and by the call in the try body. -/
structure TryCell where
  location : String
  call_desc : String
deriving DecidableEq

/-- Transcription of every cell in the repository that deliberately
triggers a library error inside a try/except block. -/
def try_cells : List TryCell :=
  [ ⟨"part_000:662-666", "z.sample()"⟩
  , ⟨"part_000:975-978", "x_user.sample()"⟩
  , ⟨"part_005:533-537", "b.sample(10)"⟩
  , ⟨"part_005:681-684", "likelihood.pdf(x=particular_x)"⟩ ]

/-- What a cell execution looks like from the outside: it either runs to
completion, possibly printing a caught error message, or an exception
escapes the cell. -/
inductive CellOutcome where
  | completed (printed : Option String)
  | raised (e : String)
deriving DecidableEq

/-- Semantics of a try/except-print cell: the try body performs one
library call; if it returns, the cell completes printing nothing, and if
it raises, the except Exception branch catches the exception and prints
its message, so the cell still completes. -/
def run_try_except (call_result : Except String ℚ) : CellOutcome :=
  match call_result with
  | Except.ok _ => CellOutcome.completed none
  | Except.error e => CellOutcome.completed (some e)

/-- Running one transcribed try cell against an arbitrary behavior of the
external library, given as a map from the call text to its outcome. -/
def run_cell (behave : String → Except String ℚ) (c : TryCell) : CellOutcome :=
  run_try_except (behave c.call_desc)

/-- The syntactic kind of one use of a Samples object in notebook code. -/
inductive UseKind where
  | plot_method (name : String)
  | attr_access (name : String)
  | transformation (name : String)
  | builtin_application (name : String)
deriving DecidableEq

/-- One use of a library-returned Samples object in the notebook code. -/
structure SamplesUse where
  location : String
  object : String
  kind : UseKind
deriving DecidableEq

/-- Whether a use is a call to a plotting or summary-statistic method of
the Samples object. -/
def is_plot_or_summary : UseKind → Bool
  | UseKind.plot_method _ => true
  | _ => false

/-- Transcription of every use of a Samples object appearing in the
notebooks: each method call, attribute access, or application of a python
builtin whose receiver or argument is a value returned by sample,
sample_posterior, UQ, get_samples, or burnthin. -/
def samples_uses : List SamplesUse :=
  [ ⟨"part_000:239", "x_samples", UseKind.builtin_application "type"⟩
  , ⟨"part_000:264", "x_samples", UseKind.builtin_application "dir"⟩
  , ⟨"part_000:281", "x_samples", UseKind.plot_method "plot_chain"⟩
  , ⟨"part_000:298", "x_samples", UseKind.plot_method "hist_chain"⟩
  , ⟨"part_000:315", "x_samples", UseKind.plot_method "plot_trace"⟩
  , ⟨"part_000:473", "y_samples", UseKind.builtin_application "print"⟩
  , ⟨"part_000:474", "y_samples", UseKind.attr_access "shape"⟩
  , ⟨"part_000:491", "y_samples", UseKind.plot_method "plot_chain"⟩
  , ⟨"part_000:510", "y_samples", UseKind.plot_method "plot"⟩
  , ⟨"part_000:527", "y_samples", UseKind.plot_method "plot"⟩
  , ⟨"part_000:544", "y_samples", UseKind.plot_method "plot_violin"⟩
  , ⟨"part_000:561", "y_samples", UseKind.plot_method "plot_mean"⟩
  , ⟨"part_000:580", "y_samples", UseKind.plot_method "plot_std"⟩
  , ⟨"part_000:1047", "x_samples", UseKind.plot_method "hist_chain"⟩
  , ⟨"part_000:1048", "x_user_samples", UseKind.plot_method "hist_chain"⟩
  , ⟨"part_003:236", "samples[x]", UseKind.plot_method "plot_trace"⟩
  , ⟨"part_003:237", "samples[d]", UseKind.plot_method "plot_trace"⟩
  , ⟨"part_003:627", "samples[x]", UseKind.plot_method "plot_ci"⟩
  , ⟨"part_003:650", "samples[d]", UseKind.plot_method "plot_trace"⟩
  , ⟨"part_003:673", "samples[s]", UseKind.plot_method "plot_trace"⟩
  , ⟨"part_003:739", "samples[x]", UseKind.plot_method "plot_ci"⟩
  , ⟨"part_003:842", "samples_Ld[key]", UseKind.transformation "burnthin"⟩
  , ⟨"part_003:869", "samples_Ld[x]", UseKind.plot_method "plot_ci"⟩
  , ⟨"part_003:883", "samples_Ld[d]", UseKind.plot_method "plot_trace"⟩
  , ⟨"part_003:897", "samples_Ld[s]", UseKind.plot_method "plot_trace"⟩
  , ⟨"part_003:914", "samples_Ld[x]", UseKind.plot_method "plot"⟩
  , ⟨"part_003:993", "samples_post", UseKind.plot_method "plot_pair"⟩
  , ⟨"part_005:325", "x_samples", UseKind.plot_method "plot_pair"⟩
  , ⟨"part_005:416", "samples", UseKind.plot_method "plot_trace"⟩
  , ⟨"part_007:201", "x_samples", UseKind.plot_method "plot_pair"⟩
  , ⟨"part_007:570", "samples", UseKind.plot_method "plot_pair"⟩
  , ⟨"chapter03:599", "samples", UseKind.plot_method "plot_chain"⟩
  , ⟨"chapter03:620", "samples", UseKind.transformation "burnthin"⟩
  , ⟨"chapter03:641", "samples_final", UseKind.plot_method "plot_ci"⟩
  , ⟨"chapter03:752", "samples", UseKind.plot_method "plot_ci"⟩
  , ⟨"chapter05:67", "y_samples", UseKind.attr_access "geometry"⟩
  , ⟨"chapter05:83", "y_samples", UseKind.plot_method "plot"⟩
  , ⟨"chapter05:197", "y_samples", UseKind.attr_access "shape"⟩
  , ⟨"chapter05:213", "y_samples", UseKind.plot_method "plot"⟩
  , ⟨"chapter05:271", "y_samples", UseKind.plot_method "plot"⟩
  , ⟨"chapter05:287", "y_samples", UseKind.plot_method "plot_ci"⟩
  , ⟨"chapter05:303", "y_samples", UseKind.plot_method "plot_chain"⟩
  , ⟨"chapter05:360", "y_step_samples", UseKind.plot_method "plot"⟩
  , ⟨"chapter05:407", "y_mapped_step_samples", UseKind.plot_method "plot"⟩ ]

/-- Embedding of the loop cell of src/unnamed/part_000 lines 183 to 188:
cdf_vals = np.zeros(grid.shape), then for k in range(len(grid)) the entry
cdf_vals[k] is set to x.cdf(grid[k]); every index below the length is
overwritten, so the zero initialization never shows through. -/
def cdf_vals_loop (cdf : ℚ → ℚ) (g : List ℚ) : List ℚ :=
  (List.range g.length).map (fun k => cdf (g.getD k 0))

/-- Embedding of the list-comprehension cell of src/unnamed/part_000
lines 199 to 206: the list x.cdf(node_k) for node_k in grid. -/
def cdf_list_comprehension (cdf : ℚ → ℚ) (g : List ℚ) : List ℚ :=
  g.map cdf

/-- The grid of the two cdf cells: np.linspace(-10, 10, 1001). -/
def cdf_grid : List ℚ :=
  (List.range 1001).map (linspace (-10) 10 1001)

/-! Helper lemmas shared by the claim theorems. -/

theorem pyMapLoop_ok_of_forall {α β : Type} (f : α → Except String β) (l : List α)
    (P : β → Prop) (h : ∀ a ∈ l, ∃ b, f a = Except.ok b ∧ P b) :
    ∃ bs, pyMapLoop f l = Except.ok bs ∧ bs.length = l.length ∧ ∀ b ∈ bs, P b := by
  induction l with
  | nil => exact ⟨[], rfl, rfl, by simp⟩
  | cons a rest ih =>
    obtain ⟨b, hb, hPb⟩ := h a (List.mem_cons_self a rest)
    obtain ⟨bs, hbs, hlen, hall⟩ := ih (fun x hx => h x (List.mem_cons_of_mem a hx))
    refine ⟨b :: bs, ?_, by simp [hlen], ?_⟩
    · simp only [pyMapLoop, hb, hbs]
    · intro y hy
      rcases List.mem_cons.mp hy with h1 | h2
      · exact h1 ▸ hPb
      · exact hall y h2

theorem pyMapLoop_error_mem {α β : Type} (f : α → Except String β) (l : List α)
    (e : String) (h : pyMapLoop f l = Except.error e) :
    ∃ a ∈ l, f a = Except.error e := by
  induction l with
  | nil => simp [pyMapLoop] at h
  | cons a rest ih =>
    cases hfa : f a with
    | error e1 =>
      have he : e1 = e := by
        simp only [pyMapLoop, hfa] at h
        exact (Except.error.injEq _ _).mp h
      exact ⟨a, List.mem_cons_self a rest, by rw [hfa, he]⟩
    | ok b =>
      cases hrest : pyMapLoop f rest with
      | error e2 =>
        have he : e2 = e := by
          simp only [pyMapLoop, hfa, hrest] at h
          exact (Except.error.injEq _ _).mp h
        obtain ⟨x, hx, hfx⟩ := ih (he ▸ hrest)
        exact ⟨x, List.mem_cons_of_mem a hx, hfx⟩
      | ok bs => simp [pyMapLoop, hfa, hrest] at h

theorem pyMapLoop_error_of_mem {α β : Type} (f : α → Except String β) (l : List α)
    (a : α) (ha : a ∈ l) (e : String) (hfa : f a = Except.error e) :
    ∃ e2, pyMapLoop f l = Except.error e2 := by
  induction l with
  | nil => cases ha
  | cons x rest ih =>
    cases hfx : f x with
    | error e1 => exact ⟨e1, by simp [pyMapLoop, hfx]⟩
    | ok b =>
      have ha2 : a ∈ rest := by
        rcases List.mem_cons.mp ha with h1 | h2
        · rw [h1, hfx] at hfa; cases hfa
        · exact h2
      obtain ⟨e2, he2⟩ := ih ha2
      exact ⟨e2, by simp [pyMapLoop, hfx, he2]⟩

theorem mem_gridPoints_iff (a b c d : ℚ) (N2 : ℕ) (p : ℚ × ℚ) :
    p ∈ gridPoints a b c d N2 ↔
      ∃ ii < N2, ∃ jj < N2,
        p = (meshgrid1 a b N2 ii jj, meshgrid2 c d N2 ii jj) := by
  simp only [gridPoints, List.mem_flatMap, List.mem_map, List.mem_range]
  constructor
  · rintro ⟨ii, hii, jj, hjj, rfl⟩
    exact ⟨ii, hii, jj, hjj, rfl⟩
  · rintro ⟨ii, hii, jj, hjj, rfl⟩
    exact ⟨ii, hii, jj, hjj, rfl⟩

theorem range_map_getD_eq_map (f : ℚ → ℚ) (g : List ℚ) :
    (List.range g.length).map (fun k => f (g.getD k 0)) = g.map f := by
  induction g with
  | nil => rfl
  | cons a l ih =>
    simp only [List.length_cons, List.range_succ_eq_map, List.map_cons,
      List.map_map, List.getD_cons_zero]
    refine congrArg (f a :: ·) ?_
    calc ((List.range l.length).map (fun k => f ((a :: l).getD (Nat.succ k) 0)))
        = (List.range l.length).map (fun k => f (l.getD k 0)) := by
          refine List.map_congr_left ?_
          intro k _
          rfl
      _ = l.map f := ih

/-! Claim theorems. -/

/-- C2: the entropy integrand closure returns dist.pdf(val) * dist.logd(val),
and the entropy estimate equals -1 times the first component of the result
of the external quadrature routine applied to this closure over the
interval from minus infinity to plus infinity. -/
theorem entropy_cells_spec :
    ∀ (quad : (ℚ → ℚ) → IntLimit → IntLimit → ℚ × ℚ) (x : Distribution) (val : ℚ),
      entropy_integrand x val = x.pdf val * x.logd val ∧
      x_entropy quad x =
        -1 * (quad (fun v => entropy_integrand x v) IntLimit.neg_inf IntLimit.pos_inf).1 :=
  fun _ _ _ => ⟨rfl, rfl⟩

/-- C4: the grid-resolution argument N2 of plot_pdf_2D has no influence on
its output: any two argument values produce identical results (for both the
total model and the exception-aware model), because the body rebinds N2 to
the constant 201 before use, so the matrix side is always 201. -/
theorem plot_pdf_2D_ignores_N2_argument :
    ∀ (np_exp : ℚ → ℚ) (logd : ℚ × ℚ → ℚ) (logd2 : ℚ × ℚ → Except String ℚ)
      (a b c d : ℚ) (N2 N2' : ℕ),
      plot_pdf_2D np_exp logd a b c d N2 = plot_pdf_2D np_exp logd a b c d N2' ∧
      plot_pdf_2D_exc np_exp logd2 a b c d N2 = plot_pdf_2D_exc np_exp logd2 a b c d N2' ∧
      (plot_pdf_2D np_exp logd a b c d N2).size = 201 ∧
      (gridPoints a b c d 201).length = 201 * 201 := by
  intro np_exp logd logd2 a b c d N2 N2'
  refine ⟨rfl, rfl, rfl, ?_⟩
  simp only [gridPoints, List.length_flatMap, Function.comp_def, List.length_map,
    List.length_range, List.map_const', List.sum_replicate, smul_eq_mul]

/-- C9: the loop-based evaluation filling cdf_vals with x.cdf(grid[k]) for
each index k is pointwise equal to the list comprehension form, and the two
cells hand plt.plot identical (grid, values) pairs. -/
theorem cdf_loop_eq_list_comprehension :
    ∀ (cdf : ℚ → ℚ) (g : List ℚ),
      cdf_vals_loop cdf g = cdf_list_comprehension cdf g ∧
      (cdf_grid, cdf_vals_loop cdf cdf_grid) =
        (cdf_grid, cdf_list_comprehension cdf cdf_grid) := by
  intro cdf g
  constructor
  · exact range_map_getD_eq_map cdf g
  · rw [Prod.mk.injEq]
    exact ⟨rfl, range_map_getD_eq_map cdf cdf_grid⟩

/-- C10: for every domain and resolution N2 at least 2, the extent computed
by plot2d is the domain inflated symmetrically by half a pixel width on
each side, the pixel widths being (x1_max - x1_min)/(N2 - 1) and
(x2_max - x2_min)/(N2 - 1); equivalently the centers of the corner pixels
of the rendered image coincide with the corners of the requested domain. -/
theorem plot2d_extent_halfpixel (x1_min x1_max x2_min x2_max : ℚ) (N2 : ℕ)
    (h : 2 ≤ N2) :
    plot2d_extent x1_min x1_max x2_min x2_max N2 =
      ⟨x1_min - (x1_max - x1_min) / ((N2 : ℚ) - 1) / 2,
       x1_max + (x1_max - x1_min) / ((N2 : ℚ) - 1) / 2,
       x2_min - (x2_max - x2_min) / ((N2 : ℚ) - 1) / 2,
       x2_max + (x2_max - x2_min) / ((N2 : ℚ) - 1) / 2⟩ ∧
    pixelCenterX (plot2d_extent x1_min x1_max x2_min x2_max N2) N2 0 = x1_min ∧
    pixelCenterX (plot2d_extent x1_min x1_max x2_min x2_max N2) N2 (N2 - 1) = x1_max ∧
    pixelCenterY (plot2d_extent x1_min x1_max x2_min x2_max N2) N2 0 = x2_min ∧
    pixelCenterY (plot2d_extent x1_min x1_max x2_min x2_max N2) N2 (N2 - 1) = x2_max := by
  have h1 : 1 ≤ N2 := le_trans (by norm_num) h
  have hq : (2 : ℚ) ≤ (N2 : ℚ) := by exact_mod_cast h
  have hN1 : (N2 : ℚ) - 1 ≠ 0 := by intro hc; nlinarith
  have hN0 : (N2 : ℚ) ≠ 0 := by intro hc; nlinarith
  have hcast : ((N2 - 1 : ℕ) : ℚ) = (N2 : ℚ) - 1 := by
    rw [Nat.cast_sub h1]; norm_num
  refine ⟨?_, ?_, ?_, ?_, ?_⟩
  · simp only [plot2d_extent, Extent.mk.injEq]
    refine ⟨by ring, by ring, by ring, by ring⟩
  · simp only [plot2d_extent, pixelCenterX]
    field_simp
    ring
  · simp only [plot2d_extent, pixelCenterX, hcast]
    field_simp
    ring
  · simp only [plot2d_extent, pixelCenterY]
    field_simp
    ring
  · simp only [plot2d_extent, pixelCenterY, hcast]
    field_simp
    ring

/-- Witness for C10 at the concrete domain [0, 2] x [0, 2] with N2 = 3. -/
theorem plot2d_extent_halfpixel_witness :
    plot2d_extent 0 2 0 2 3 =
      ⟨0 - (2 - 0) / ((3 : ℚ) - 1) / 2,
       2 + (2 - 0) / ((3 : ℚ) - 1) / 2,
       0 - (2 - 0) / ((3 : ℚ) - 1) / 2,
       2 + (2 - 0) / ((3 : ℚ) - 1) / 2⟩ ∧
    pixelCenterX (plot2d_extent 0 2 0 2 3) 3 0 = 0 ∧
    pixelCenterX (plot2d_extent 0 2 0 2 3) 3 (3 - 1) = 2 ∧
    pixelCenterY (plot2d_extent 0 2 0 2 3) 3 0 = 0 ∧
    pixelCenterY (plot2d_extent 0 2 0 2 3) 3 (3 - 1) = 2 :=
  plot2d_extent_halfpixel 0 2 0 2 3 (by norm_num)

/-- C5: every Gibbs orchestration site hands the strategy mapping and the
target unchanged to the HybridGibbs constructor, and the only methods the
notebooks invoke on the sampler afterwards are warmup, sample, and
get_samples. -/
theorem gibbs_sites_only_configure :
    ∀ s ∈ gibbs_sites,
      s.constructor_strategy = s.strategy_def ∧
      s.constructor_target = s.target_var ∧
      ∀ c ∈ s.post_calls,
        c.method = "warmup" ∨ c.method = "sample" ∨ c.method = "get_samples" := by
  decide

/-- Witness for C5 at the first HybridGibbs site of part_003. -/
theorem gibbs_sites_only_configure_witness :
    (⟨"part_003:186-219", [("x", "Direct"), ("d", "Conjugate")], "target",
        [("x", "Direct"), ("d", "Conjugate")], "target",
        [⟨"warmup", some 1000⟩, ⟨"sample", some 1000⟩, ⟨"get_samples", none⟩]⟩ :
          GibbsSite).constructor_strategy =
      (⟨"part_003:186-219", [("x", "Direct"), ("d", "Conjugate")], "target",
        [("x", "Direct"), ("d", "Conjugate")], "target",
        [⟨"warmup", some 1000⟩, ⟨"sample", some 1000⟩, ⟨"get_samples", none⟩]⟩ :
          GibbsSite).strategy_def ∧
    (⟨"part_003:186-219", [("x", "Direct"), ("d", "Conjugate")], "target",
        [("x", "Direct"), ("d", "Conjugate")], "target",
        [⟨"warmup", some 1000⟩, ⟨"sample", some 1000⟩, ⟨"get_samples", none⟩]⟩ :
          GibbsSite).constructor_target =
      (⟨"part_003:186-219", [("x", "Direct"), ("d", "Conjugate")], "target",
        [("x", "Direct"), ("d", "Conjugate")], "target",
        [⟨"warmup", some 1000⟩, ⟨"sample", some 1000⟩, ⟨"get_samples", none⟩]⟩ :
          GibbsSite).target_var ∧
    ∀ c ∈ (⟨"part_003:186-219", [("x", "Direct"), ("d", "Conjugate")], "target",
        [("x", "Direct"), ("d", "Conjugate")], "target",
        [⟨"warmup", some 1000⟩, ⟨"sample", some 1000⟩, ⟨"get_samples", none⟩]⟩ :
          GibbsSite).post_calls,
      c.method = "warmup" ∨ c.method = "sample" ∨ c.method = "get_samples" :=
  gibbs_sites_only_configure _ (by decide)

/-- C6: in every try/except teaching cell, any exception raised by the
library call is caught and its message printed; the cell never re-raises,
so execution continues past the cell for every behavior of the library. -/
theorem try_cells_never_reraise :
    ∀ (behave : String → Except String ℚ), ∀ c ∈ try_cells,
      (∃ p, run_cell behave c = CellOutcome.completed p) ∧
      ∀ e, run_cell behave c ≠ CellOutcome.raised e := by
  intro behave c _hc
  unfold run_cell run_try_except
  cases behave c.call_desc with
  | ok v => exact ⟨⟨none, rfl⟩, fun e hc => by cases hc⟩
  | error e => exact ⟨⟨some e, rfl⟩, fun e2 hc => by cases hc⟩

/-- Witness for C6: the first try cell against a library that raises. -/
theorem try_cells_never_reraise_witness :
    (∃ p, run_cell (fun _ => Except.error "fail") ⟨"part_000:662-666", "z.sample()"⟩ =
        CellOutcome.completed p) ∧
    ∀ e, run_cell (fun _ => Except.error "fail") ⟨"part_000:662-666", "z.sample()"⟩ ≠
        CellOutcome.raised e :=
  try_cells_never_reraise (fun _ => Except.error "fail") _ (by decide)

/-- Counterexample to C7 as stated: the use at part_000 line 474 is an
access of the shape attribute of a Samples object, not a call to a
plotting or summary-statistic method. -/
theorem samples_use_shape_counterexample :
    (⟨"part_000:474", "y_samples", UseKind.attr_access "shape"⟩ : SamplesUse) ∈ samples_uses ∧
    is_plot_or_summary (UseKind.attr_access "shape") = false := by
  decide

/-- Uses of a Samples object beyond plotting and summary-statistic method
calls that actually occur in the notebooks: reading the shape or geometry
attribute, handing the object to the builtins print, type, or dir, and the
burnthin transformation that removes burn-in. -/
def allowed_extra_use : UseKind → Bool
  | UseKind.attr_access n => n == "shape" || n == "geometry"
  | UseKind.transformation n => n == "burnthin"
  | UseKind.builtin_application n => n == "print" || n == "type" || n == "dir"
  | _ => false

/-- C7 amended: every use of a Samples object in the notebook code is a
call to a plotting or summary-statistic method, except for shape and
geometry attribute reads, applications of the builtins print, type, and
dir, and burnthin transformations removing burn-in. -/
theorem samples_uses_classified :
    ∀ u ∈ samples_uses,
      is_plot_or_summary u.kind = true ∨ allowed_extra_use u.kind = true := by
  decide

/-- Witness for the amended C7 at the use of part_000 line 281. -/
theorem samples_uses_classified_witness :
    is_plot_or_summary (UseKind.plot_method "plot_chain") = true ∨
    allowed_extra_use (UseKind.plot_method "plot_chain") = true :=
  samples_uses_classified
    ⟨"part_000:281", "x_samples", UseKind.plot_method "plot_chain"⟩ (by decide)

/-- Counterexample to C1 as stated: called with the resolution argument 3,
plot_pdf_2D does not fill a 3-by-3 matrix; the side length is 201. -/
theorem plot_pdf_2D_size_counterexample :
    ¬ ((plot_pdf_2D (fun q => q) (fun _ => 0) 0 1 0 1 3).size = 3) := by
  decide

/-- C1 amended: for every distribution-like log density, every rectangular
domain, and every value of the resolution argument, plot_pdf_2D fills a
201-by-201 matrix whose entry (ii, jj) is the exponential of the log
density at the (ii, jj)-th point of the meshgrid of 201 equally spaced
points per axis, and hands the matrix with the domain to the heat-map
renderer. -/
theorem plot_pdf_2D_entries_spec :
    ∀ (np_exp : ℚ → ℚ) (logd : ℚ × ℚ → ℚ) (a b c d : ℚ) (N2 ii jj : ℕ),
      (plot_pdf_2D np_exp logd a b c d N2).size = 201 ∧
      (plot_pdf_2D np_exp logd a b c d N2).entry ii jj =
        np_exp (logd (linspace a b 201 jj, linspace c d 201 ii)) ∧
      (plot_pdf_2D np_exp logd a b c d N2).extent = plot2d_extent a b c d 201 :=
  fun _ _ _ _ _ _ _ _ _ => ⟨rfl, rfl, rfl⟩

/-- Counterexample to C3 as stated: a pull request targeting main triggers
the workflow, which installs dependencies and builds the book, but the
publish step to gh-pages does not run for pull-request events. -/
theorem workflow_pull_request_counterexample :
    workflow_triggered (GHEvent.pull_request ("main")) = true ∧
    Step.install_dependencies ∈ steps_run (GHEvent.pull_request ("main")) ∧
    Step.build_the_book ∈ steps_run (GHEvent.pull_request ("main")) ∧
    Step.publish_gh_pages ∉ steps_run (GHEvent.pull_request ("main")) := by
  decide

/-- C3 amended: every triggering event (push to main or pull request
targeting main) installs dependencies and builds the book, but the static
HTML is published to branch gh-pages exactly when the event is a push to
main; a pull-request build instead uploads the HTML as an artifact. -/
theorem workflow_steps_spec (e : GHEvent) (h : workflow_triggered e = true) :
    Step.install_dependencies ∈ steps_run e ∧
    Step.build_the_book ∈ steps_run e ∧
    (Step.publish_gh_pages ∈ steps_run e ↔ e = GHEvent.push ("main")) ∧
    (Step.upload_artifact ∈ steps_run e ↔ e = GHEvent.pull_request ("main")) := by
  cases e with
  | push b =>
    have hb : b = "main" := by
      have := h
      simp only [workflow_triggered, beq_iff_eq] at this
      exact this
    subst hb
    decide
  | pull_request b =>
    have hb : b = "main" := by
      have := h
      simp only [workflow_triggered, beq_iff_eq] at this
      exact this
    subst hb
    decide

/-- Witness for the amended C3 at a push to main. -/
theorem workflow_steps_spec_witness :
    Step.install_dependencies ∈ steps_run (GHEvent.push ("main")) ∧
    Step.build_the_book ∈ steps_run (GHEvent.push ("main")) ∧
    (Step.publish_gh_pages ∈ steps_run (GHEvent.push ("main")) ↔
      GHEvent.push ("main") = GHEvent.push ("main")) ∧
    (Step.upload_artifact ∈ steps_run (GHEvent.push ("main")) ↔
      GHEvent.push ("main") = GHEvent.pull_request ("main")) :=
  workflow_steps_spec (GHEvent.push ("main")) (by decide)

/-- C8: plot_pdf_2D raises exactly when some log-density evaluation at a
grid point raises, the exception propagating unchanged and nothing being
rendered; and when every evaluation succeeds the call completes the full
nested sweep, producing the 201-by-201 matrix and rendering it. -/
theorem plot_pdf_2D_exc_spec (np_exp : ℚ → ℚ) (logd : ℚ × ℚ → Except String ℚ)
    (a b c d : ℚ) (N2 : ℕ) :
    ((∀ p ∈ gridPoints a b c d 201, ∃ v, logd p = Except.ok v) →
      ∃ rows, plot_pdf_2D_exc np_exp logd a b c d N2 =
          Except.ok (rows, plot2d_extent a b c d 201) ∧
        rows.length = 201 ∧ ∀ row ∈ rows, row.length = 201) ∧
    (∀ e, plot_pdf_2D_exc np_exp logd a b c d N2 = Except.error e →
      ∃ p ∈ gridPoints a b c d 201, logd p = Except.error e) ∧
    ((∃ p ∈ gridPoints a b c d 201, ∃ e, logd p = Except.error e) →
      ∃ e, plot_pdf_2D_exc np_exp logd a b c d N2 = Except.error e) := by
  have hmem : ∀ ii ∈ List.range 201, ∀ jj ∈ List.range 201,
      (meshgrid1 a b 201 ii jj, meshgrid2 c d 201 ii jj) ∈ gridPoints a b c d 201 := by
    intro ii hii jj hjj
    rw [mem_gridPoints_iff]
    exact ⟨ii, List.mem_range.mp hii, jj, List.mem_range.mp hjj, rfl⟩
  have hbridge_ok : ∀ (rows : List (List ℚ)),
      pdf_matrix_loop np_exp logd a b c d 201 = Except.ok rows →
      plot_pdf_2D_exc np_exp logd a b c d N2 =
        Except.ok (rows, plot2d_extent a b c d 201) := by
    intro rows hr
    show (match pdf_matrix_loop np_exp logd a b c d 201 with
          | Except.error e => Except.error e
          | Except.ok rows => Except.ok (rows, plot2d_extent a b c d 201)) =
        Except.ok (rows, plot2d_extent a b c d 201)
    rw [hr]
  have hbridge_err : ∀ (e : String),
      pdf_matrix_loop np_exp logd a b c d 201 = Except.error e →
      plot_pdf_2D_exc np_exp logd a b c d N2 = Except.error e := by
    intro e hr
    show (match pdf_matrix_loop np_exp logd a b c d 201 with
          | Except.error e => Except.error e
          | Except.ok rows => Except.ok (rows, plot2d_extent a b c d 201)) =
        Except.error e
    rw [hr]
  refine ⟨?_, ?_, ?_⟩
  · intro hok
    have hinner : ∀ ii ∈ List.range 201,
        ∃ row, pyMapLoop (fun jj =>
            logd_exp_entry np_exp logd (meshgrid1 a b 201 ii jj, meshgrid2 c d 201 ii jj))
          (List.range 201) = Except.ok row ∧ row.length = 201 := by
      intro ii hii
      obtain ⟨row, hrow, hlen, -⟩ :=
        pyMapLoop_ok_of_forall
          (fun jj =>
            logd_exp_entry np_exp logd (meshgrid1 a b 201 ii jj, meshgrid2 c d 201 ii jj))
          (List.range 201) (fun _ => True)
          (by
            intro jj hjj
            obtain ⟨v, hv⟩ := hok _ (hmem ii hii jj hjj)
            exact ⟨np_exp v, by simp [logd_exp_entry, hv], trivial⟩)
      exact ⟨row, hrow, by simpa using hlen⟩
    obtain ⟨rows, hrows, hlen2, hall⟩ :=
      pyMapLoop_ok_of_forall
        (fun ii =>
          pyMapLoop (fun jj =>
              logd_exp_entry np_exp logd (meshgrid1 a b 201 ii jj, meshgrid2 c d 201 ii jj))
            (List.range 201))
        (List.range 201) (fun row => row.length = 201) hinner
    have hrows2 : pdf_matrix_loop np_exp logd a b c d 201 = Except.ok rows := hrows
    exact ⟨rows, hbridge_ok _ hrows2, by simpa using hlen2, hall⟩
  · intro e he
    cases hm : pdf_matrix_loop np_exp logd a b c d 201 with
    | ok rows =>
      rw [hbridge_ok _ hm] at he
      cases he
    | error e0 =>
      have he0 : e0 = e := by
        rw [hbridge_err _ hm] at he
        exact (Except.error.injEq _ _).mp he
      subst he0
      have hm2 : pyMapLoop (fun ii =>
          pyMapLoop (fun jj =>
              logd_exp_entry np_exp logd (meshgrid1 a b 201 ii jj, meshgrid2 c d 201 ii jj))
            (List.range 201))
          (List.range 201) = Except.error e0 := hm
      obtain ⟨ii, hii, hinner_err⟩ := pyMapLoop_error_mem _ _ _ hm2
      obtain ⟨jj, hjj, hentry⟩ := pyMapLoop_error_mem _ _ _ hinner_err
      cases hl : logd (meshgrid1 a b 201 ii jj, meshgrid2 c d 201 ii jj) with
      | ok v =>
        unfold logd_exp_entry at hentry
        rw [hl] at hentry
        cases hentry
      | error e1 =>
        unfold logd_exp_entry at hentry
        rw [hl] at hentry
        have he1 : e1 = e0 := (Except.error.injEq _ _).mp hentry
        exact ⟨_, hmem ii hii jj hjj, by rw [hl, he1]⟩
  · rintro ⟨p, hp, e, hpe⟩
    rw [mem_gridPoints_iff] at hp
    obtain ⟨ii, hii, jj, hjj, rfl⟩ := hp
    have hentry : logd_exp_entry np_exp logd
        (meshgrid1 a b 201 ii jj, meshgrid2 c d 201 ii jj) = Except.error e := by
      unfold logd_exp_entry
      rw [hpe]
    obtain ⟨e2, he2⟩ :=
      pyMapLoop_error_of_mem
        (fun jj2 =>
          logd_exp_entry np_exp logd (meshgrid1 a b 201 ii jj2, meshgrid2 c d 201 ii jj2))
        (List.range 201) jj (List.mem_range.mpr hjj) e hentry
    obtain ⟨e3, he3⟩ :=
      pyMapLoop_error_of_mem
        (fun ii2 =>
          pyMapLoop (fun jj2 =>
              logd_exp_entry np_exp logd (meshgrid1 a b 201 ii2 jj2, meshgrid2 c d 201 ii2 jj2))
            (List.range 201))
        (List.range 201) ii (List.mem_range.mpr hii) e2 he2
    have he4 : pdf_matrix_loop np_exp logd a b c d 201 = Except.error e3 := he3
    exact ⟨e3, hbridge_err _ he4⟩

/-- Witness for C8: a log density succeeding everywhere completes the full
sweep and renders. -/
theorem plot_pdf_2D_exc_spec_witness :
    ∃ rows, plot_pdf_2D_exc (fun q => q) (fun _ => Except.ok 0) 0 1 0 1 7 =
        Except.ok (rows, plot2d_extent 0 1 0 1 201) ∧
      rows.length = 201 ∧ ∀ row ∈ rows, row.length = 201 :=
  (plot_pdf_2D_exc_spec (fun q => q) (fun _ => Except.ok 0) 0 1 0 1 7).1
    (fun _ _ => ⟨0, rfl⟩)

end CuqiBook
